import Mathlib

/-!
# Verification of the pytroll-cspp-runner granule-windowing pipeline

Shallow embedding of the core of `pytroll-cspp-runner`:

* `cspp_runner/__init__.py` — filename parsing (`get_sdr_times`,
  `get_datetime_from_filename`, `get_npp_stamp`, `NPPStamp.__str__`,
  `is_same_granule`);
* `bin/cspp_dr_runner.py` — the granule-windowing state machine
  (`_BaseSdrProcessor.initialise` / `run`) and its driving loop
  (`npp_rolling_runner`);
* `cspp_runner/runner.py` — the dispatch/reconcile/publish pipeline
  (`run_cspp`, `spawn_cspp`, `publish_sdr`) together with
  `cspp_runner/post_cspp.py` (`get_sdr_files`,
  `get_sdr_filenames_from_pattern_and_parameters`).

Python `datetime` values are embedded as a civil date plus a
time-of-day in deciseconds (the filename grammar encodes times with a
tenth-of-second digit, and all message timestamps relevant to the claims
are exact multiples of 0.1 s, so deciseconds are exact).  Durations and
comparisons go through `Datetime.toDs`, the total count of deciseconds
on the proleptic Gregorian time line.
-/

set_option linter.unusedVariables false

namespace CsppRunner

/-! ## Civil calendar

Embeds the date arithmetic of Python's `datetime`: comparison,
`strftime` field access, and `+ timedelta(days=1)`. -/

/-- A civil (proleptic Gregorian) calendar date, as encoded in the
`d<YYYYMMDD>` field of the filename grammar. -/
structure Date where
  year : Int
  month : Nat
  day : Nat
  deriving DecidableEq, Repr

/-- Gregorian leap-year predicate (as in Python's `calendar.isleap`). -/
def Date.isLeap (y : Int) : Bool :=
  (y % 4 == 0 && y % 100 != 0) || y % 400 == 0

/-- Days in a month, given the leap flag of the year. -/
def daysInMonthOf (leap : Bool) (m : Nat) : Nat :=
  if m = 2 then (if leap then 29 else 28)
  else if m = 4 ∨ m = 6 ∨ m = 9 ∨ m = 11 then 30
  else 31

/-- Days in the month of date `d`'s year. -/
def Date.daysInMonth (d : Date) : Nat :=
  daysInMonthOf (Date.isLeap d.year) d.month

/-- Cumulative number of days strictly before month `m` in a year with
leap flag `leap`. -/
def daysBeforeMonth (leap : Bool) (m : Nat) : Nat :=
  let l : Nat := if leap then 1 else 0
  match m with
  | 1 => 0
  | 2 => 31
  | 3 => 59 + l
  | 4 => 90 + l
  | 5 => 120 + l
  | 6 => 151 + l
  | 7 => 181 + l
  | 8 => 212 + l
  | 9 => 243 + l
  | 10 => 273 + l
  | 11 => 304 + l
  | 12 => 334 + l
  | _ => 365 + l

/-- Number of leap years in `[1, y)` (proleptic Gregorian, extended to
all integer years by floor division). -/
def leapsBefore (y : Int) : Int :=
  (y - 1) / 4 - (y - 1) / 100 + (y - 1) / 400

/-- Day number of a civil date on the proleptic Gregorian time line
(day 0 = 0001-01-01).  This is the semantics of ordering and
subtraction of Python `date` objects. -/
def daysFromCivil (d : Date) : Int :=
  365 * (d.year - 1) + leapsBefore d.year
    + (daysBeforeMonth (Date.isLeap d.year) d.month : Int) + (d.day : Int) - 1

/-- The calendar successor of a date (the date part of
`+ timedelta(days=1)`). -/
def Date.next (d : Date) : Date :=
  if d.day < d.daysInMonth then ⟨d.year, d.month, d.day + 1⟩
  else if d.month < 12 then ⟨d.year, d.month + 1, 1⟩
  else ⟨d.year + 1, 1, 1⟩

/-- A date is valid when its month and day are in range; this is what
`datetime.strptime` accepts for `%Y%m%d`. -/
def Date.Valid (d : Date) : Prop :=
  1 ≤ d.month ∧ d.month ≤ 12 ∧ 1 ≤ d.day ∧ d.day ≤ d.daysInMonth

instance (d : Date) : Decidable d.Valid := by
  unfold Date.Valid; infer_instance

/-! ## Time of day and datetimes -/

/-- Time of day as encoded by the seven-digit `HHMMSSf` field of the
filename grammar (`f` = tenths of a second; `strptime` with `%f` turns
a single trailing digit into `digit * 100000` microseconds). -/
structure Tod where
  hour : Nat
  minute : Nat
  second : Nat
  tenth : Nat
  deriving DecidableEq, Repr

/-- The time of day in deciseconds. -/
def Tod.toDs (t : Tod) : Nat :=
  t.hour * 36000 + t.minute * 600 + t.second * 10 + t.tenth

/-- The seven-digit field value `HHMMSSf` read as a number. -/
def Tod.numeral (t : Tod) : Nat :=
  t.hour * 100000 + t.minute * 1000 + t.second * 10 + t.tenth

/-- Valid field ranges (what `strptime` accepts for `%H%M%S` plus a
fraction digit). -/
def Tod.Valid (t : Tod) : Prop :=
  t.hour < 24 ∧ t.minute < 60 ∧ t.second < 60 ∧ t.tenth < 10

instance (t : Tod) : Decidable t.Valid := by
  unfold Tod.Valid; infer_instance

/-- An instant, as Python's `datetime`: a civil date plus a time of day
(in deciseconds, exact for every timestamp in this code base). -/
structure Datetime where
  date : Date
  todDs : Nat
  deriving DecidableEq, Repr

/-- Total deciseconds on the proleptic Gregorian time line: the
semantics of ordering and subtraction of Python `datetime` objects. -/
def Datetime.toDs (t : Datetime) : Int :=
  daysFromCivil t.date * 864000 + (t.todDs : Int)

/-- Python `dt + timedelta(days=1)`: the civil date advances by one,
the time of day is unchanged. -/
def Datetime.addDay (t : Datetime) : Datetime :=
  ⟨t.date.next, t.todDs⟩

/-- A datetime arising from a parsed filename: valid date, time of day
within one day. -/
def Datetime.Valid (t : Datetime) : Prop :=
  t.date.Valid ∧ t.todDs < 864000

/-! ## The granule filename grammar

A granule (RDR or SDR) filename is
`<product>_<platform>_d<YYYYMMDD>_t<HHMMSSf>_e<HHMMSSf>_b<orbit>_c<creation>_<source>.<ext>`.
The parsing functions of `cspp_runner/__init__.py` act on the fields of
this grammar (`basename.split('_')` and `strptime`), so a filename
matching the grammar is embedded as the structured record of its
fields. -/

/-- The fields of a filename matching the granule grammar. -/
structure NppName where
  product : String
  platform : String
  date : Date
  startTod : Tod
  endTod : Tod
  orbit : Nat
  creation : String
  source : String
  deriving DecidableEq, Repr

/-- A filename matches the grammar when its date and time-of-day fields
are in the ranges `strptime` accepts. -/
def NppName.Valid (n : NppName) : Prop :=
  n.date.Valid ∧ n.startTod.Valid ∧ n.endTod.Valid

instance (n : NppName) : Decidable n.Valid := by
  unfold NppName.Valid; infer_instance

/-- Embedding of `get_sdr_times` (`cspp_runner/__init__.py`): parse the
start and end times from the filename fields (`sll[2]`, `sll[3]`,
`sll[4]` with `strptime` formats `d%Y%m%dt%H%M%S%f` and
`d%Y%m%de%H%M%S%f`), and add one day to the end time when it compares
smaller than the start time (midnight wraparound). -/
def get_sdr_times (n : NppName) : Datetime × Datetime :=
  let start_time : Datetime := ⟨n.date, n.startTod.toDs⟩
  let end_time : Datetime := ⟨n.date, n.endTod.toDs⟩
  let end_time := if end_time.toDs < start_time.toDs then end_time.addDay else end_time
  (start_time, end_time)

/-- Embedding of `get_datetime_from_filename`: the start time of
`get_sdr_times`. -/
def get_datetime_from_filename (n : NppName) : Datetime :=
  (get_sdr_times n).1

/-- Embedding of `is_same_granule` (`cspp_runner/__init__.py`): compare
the parsed start times of the two filenames;
`delta_t.total_seconds() < sec_tolerance` with the exact decisecond
delta (`Δds / 10 < tol ↔ Δds < 10 * tol`; both sides of the Python
float comparison are exact at this resolution). -/
def is_same_granule (filename1 filename2 : NppName) (sec_tolerance : Int) : Bool :=
  let t1 := get_datetime_from_filename filename1
  let t2 := get_datetime_from_filename filename2
  let delta_t : Int := (t1.toDs - t2.toDs).natAbs
  decide (delta_t < 10 * sec_tolerance)

/-! ## NPP stamps (`get_npp_stamp` / `NPPStamp.__str__`)

The stamp regex `.*?(([A-Za-z0-9]+)_d(\d+)_t(\d+)_e(\d+)_b(\d+)).*`
extracts, from a filename matching the granule grammar, the platform
token (the maximal alphanumeric run before `_d`), the date digits, the
two seven-digit time fields and the orbit digits.  `StampFields` is the
structured form of that extraction. -/

/-- What the NPP-stamp regex extracts from a granule filename. -/
structure StampFields where
  platform : String
  date : Date
  startTod : Tod
  endTod : Tod
  orbit : Nat
  deriving DecidableEq, Repr

/-- The stamp regex applied to a grammar-conforming filename: group 2
is the platform field, groups 3–6 the date, time and orbit fields. -/
def NppName.stampFields (n : NppName) : StampFields :=
  ⟨n.platform, n.date, n.startTod, n.endTod, n.orbit⟩

/-- Validity of stamp fields (same ranges as the grammar). -/
def StampFields.Valid (sf : StampFields) : Prop :=
  sf.date.Valid ∧ sf.startTod.Valid ∧ sf.endTod.Valid

instance (sf : StampFields) : Decidable sf.Valid := by
  unfold StampFields.Valid; infer_instance

/-- Embedding of the `NPPStamp` class: platform, parsed start and end
datetimes, orbit number. -/
structure NPPStamp where
  platform : String
  start_time : Datetime
  end_time : Datetime
  orbit_number : Nat
  deriving DecidableEq, Repr

/-- Embedding of `_dte2time`: build both datetimes on the encoded date
and add one day to the end when `start_time > end_time`. -/
def dte2time (date : Date) (startTod endTod : Tod) : Datetime × Datetime :=
  let start_time : Datetime := ⟨date, startTod.toDs⟩
  let end_time : Datetime := ⟨date, endTod.toDs⟩
  let end_time := if end_time.toDs < start_time.toDs then end_time.addDay else end_time
  (start_time, end_time)

/-- Embedding of `get_npp_stamp`: regex extraction (here already in
structured form) followed by `_dte2time`. -/
def get_npp_stamp (sf : StampFields) : NPPStamp :=
  let te := dte2time sf.date sf.startTod sf.endTod
  ⟨sf.platform, te.1, te.2, sf.orbit⟩

/-- Split a time of day in deciseconds back into `HHMMSSf` fields, as
`strftime('%H%M%S')` plus `str(microsecond / 100000)[0]` do in
`NPPStamp.__str__` (the microsecond value of a parsed stamp is always
`tenth * 100000`, so the rendered fraction digit is `ds % 10`). -/
def todOfDs (ds : Nat) : Tod :=
  ⟨ds / 36000, ds % 36000 / 600, ds % 600 / 10, ds % 10⟩

/-- Embedding of `NPPStamp.__str__` composed with the stamp regex: the
rendered string is `<platform>_d<start date>_t<start tod>_e<end tod>_b<orbit
zero-padded to 5>`, and re-matching the regex on it recovers exactly
these fields (the platform token is alphanumeric, `%05d` renders the
orbit's decimal digits, and `int` re-reads them). -/
def NPPStamp.encodeFields (st : NPPStamp) : StampFields :=
  ⟨st.platform, st.start_time.date, todOfDs st.start_time.todDs,
    todOfDs st.end_time.todDs, st.orbit_number⟩

/-! ## The granule-windowing state machine

Embedding of `_BaseSdrProcessor` of `bin/cspp_dr_runner.py` and of the
receive loop of `npp_rolling_runner` that drives it.  A message is
embedded as the data the `run` method actually consults: the outcome of
its validity checks, the declared start/end times and orbit number, and
the RDR filename after the `fix_rdrfile` block (orbit fixing itself
calls out to the filesystem and an orbital-propagation library; the
event carries its net effect, namely the final `rdr_filename` and the
final value of the local variable `orbnum`). -/

/-- A granule-arrival message as consumed by `_BaseSdrProcessor.run`. -/
structure GranMsg where
  /-- both `platform_name` and `sensor` keys are present in `msg.data` -/
  hasPlatformAndSensor : Bool
  /-- `platform_name` is one of `SDR_SATELLITES` and `'viirs'` is in `sensor` -/
  isSupportedScene : Bool
  /-- `msg.data['sensor']` is a list with more than one element -/
  sensorIsLongList : Bool
  platformName : String
  /-- `msg.data['start_time']`, in deciseconds on the time line -/
  startTimeDs : Int
  /-- `msg.data['end_time']` when present -/
  endTimeDs : Option Int
  /-- the local `orbnum` after the `fix_rdrfile` block (`None` when the
  message has no orbit number and the fix failed) -/
  orbitNumber : Option Int
  /-- the uri basename ends with `.h5` -/
  uriIsH5 : Bool
  /-- the referenced RDR file exists on disk -/
  fileExists : Bool
  /-- `rdr_filename` after the `fix_rdrfile` block -/
  rdrName : NppName
  deriving DecidableEq, Repr

/-- An event consumed by one `run` call: a message, or `None` (the
subscriber timed out, end of stream). -/
inductive RunEvent where
  | eos
  | msg (m : GranMsg)
  deriving DecidableEq, Repr

/-- A dispatched processing unit: `pool.apply_async(spawn_cspp,
[keeper] + self.glist)` hands `spawn_cspp` the keeper as
`current_granule` and the buffered window `glist` as its member list
(the full argument list is `keeper :: members`). -/
structure Emission where
  keeper : NppName
  members : List NppName
  deriving DecidableEq, Repr

/-- The mutable state of `_BaseSdrProcessor`.  `evictions` is ghost
instrumentation counting executions of the `del self.glist[0]` eviction
in the length-4 branch of `run`; it is not a field of the Python object
and no transition reads it. -/
structure ProcState where
  fullswath : Bool
  cspp_results : List Emission
  glist : List NppName
  pass_start_time : Option Datetime
  orbit_number : Int
  platform_name : String
  message_data : Option GranMsg
  evictions : Nat
  deriving DecidableEq, Repr

/-- Embedding of `_BaseSdrProcessor.initialise`: reset the windowing
fields (`fullswath`, `cspp_results`, `glist`, `pass_start_time`); the
orbit number, platform name and last message data are kept. -/
def ProcState.initialise (s : ProcState) : ProcState :=
  { s with fullswath := false, cspp_results := [], glist := [],
           pass_start_time := none }

/-- The state after `__init__` (which sets `orbit_number = 1`,
`platform_name = 'unknown'`, `message_data = None` and calls
`initialise`). -/
def initState : ProcState :=
  ProcState.initialise
    { fullswath := false, cspp_results := [], glist := [],
      pass_start_time := none, orbit_number := 1,
      platform_name := "unknown", message_data := none, evictions := 0 }

/-- Python `timedelta(deciseconds).seconds`: the whole-second component
of the normalised duration (`0 ≤ seconds < 86400`, the day part is
discarded). -/
def timedeltaSeconds (deltaDs : Int) : Int :=
  deltaDs % 864000 / 10

/-- Emission tail of `run`: set the pass start time from the keeper's
filename if not yet set, append the unit to `cspp_results`, and return
`False` (stop) on a full swath, else `True` (continue). -/
def ProcState.emitUnit (s : ProcState) (keeper : NppName) : ProcState × Bool :=
  let start_time := get_datetime_from_filename keeper
  let s := if s.pass_start_time.isNone
    then { s with pass_start_time := some start_time } else s
  let s := { s with cspp_results := s.cspp_results ++ [⟨keeper, s.glist⟩] }
  if s.fullswath then (s, false) else (s, true)

/-- The state writes `run` performs before the uri checks:
`self.platform_name = str(msg.data['platform_name'])` and
`self.message_data = msg.data`. -/
def ProcState.noteMessage (s : ProcState) (m : GranMsg) : ProcState :=
  { s with platform_name := m.platformName, message_data := some m }

/-- The orbit number after `if orbnum: self.orbit_number = orbnum`
(both `None` and `0` are falsy, so neither updates the stored value). -/
def newOrbitNumber (orb : Int) : Option Int → Int
  | some n => if n ≠ 0 then n else orb
  | none => orb

/-- `if orbnum: self.orbit_number = orbnum`. -/
def ProcState.updateOrbit (s : ProcState) (orbnum : Option Int) : ProcState :=
  { s with orbit_number := newOrbitNumber s.orbit_number orbnum }

/-- The windowing tail of `run` on a validated granule message: update
the orbit number, append the granule, hard-fail above 4 buffered,
evict the oldest at exactly 4, then select the keeper by the buffered
length and emit (3 → middle, 2 → first, 1 → only on a full-swath
span; an empty window would leave `keeper` unbound). -/
def ProcState.processGranule (s0 : ProcState) (m : GranMsg) :
    Option (ProcState × Bool) :=
  let start_time := m.startTimeDs
  -- missing end_time defaults to start_time + 86 seconds
  let end_time := m.endTimeDs.getD (m.startTimeDs + 860)
  let s := s0.updateOrbit m.orbitNumber
  let glist := s.glist ++ [m.rdrName]
  let s := { s with glist := glist }
  if 4 < glist.length then none  -- RuntimeError: invalid number of granules
  else
    let doEvict := glist.length = 4
    let glist := if doEvict then glist.tail else glist
    let s := { s with
                 glist := glist,
                 evictions := s.evictions + (if doEvict then 1 else 0) }
    match glist with
    | [_, keeper, _] => some (s.emitUnit keeper)  -- 3 granules: keep the middle one
    | [keeper, _] => some (s.emitUnit keeper)     -- 2 granules: keep the first one
    | [only] =>
      -- 1 granule: full local swath if the declared span exceeds 4 minutes
      if 4 * 60 < timedeltaSeconds (end_time - start_time) then
        some (ProcState.emitUnit { s with fullswath := true } only)
      else
        some (s, true)
    | _ => none  -- empty window: `keeper` would be unbound

/-- Embedding of `_BaseSdrProcessor.run`.  Returns `none` when the call
raises (`RuntimeError` for more than 4 buffered granules, or an unbound
`keeper` on an empty window), otherwise the new state and the returned
status (`True` = keep receiving, `False` = break out and reinitialise). -/
def ProcState.run (s : ProcState) : RunEvent → Option (ProcState × Bool)
  | .eos =>
    if 2 < s.glist.length then
      -- the swath is assumed finished: `del self.glist[0]`,
      -- `keeper = self.glist[1]`, dispatch, return False
      let glist := s.glist.tail
      match glist.get? 1 with
      | some keeper =>
          some ({ s with
                    glist := glist,
                    cspp_results := s.cspp_results ++ [⟨keeper, glist⟩] }, false)
      | none => none
    else
      -- `elif msg is None: return True`
      some (s, true)
  | .msg m =>
    if ¬ m.hasPlatformAndSensor then some (s, true)
    else if ¬ m.isSupportedScene then some (s, true)
    else if m.sensorIsLongList then
      -- "The message sensor element contains more then one sensor name."
      some (s, false)
    else
      let s := s.noteMessage m
      if ¬ m.uriIsH5 then some (s, true)
      else if ¬ m.fileExists then some (s, true)
      else s.processGranule m

/-- The receive loop of `npp_rolling_runner`: feed events in order; on a
`False` status break out and reinitialise the processor before the next
event (the per-pass packing and publishing bookkeeping between sessions
does not touch the windowing state). -/
def runLoop (s : ProcState) : List RunEvent → Option ProcState
  | [] => some s
  | e :: es =>
    match s.run e with
    | none => none
    | some (s', status) => runLoop (if status then s' else s'.initialise) es

/-- An event that passes every validity check of `run` (present and
supported platform/sensor, single sensor, `.h5` uri, existing file). -/
def GranMsg.Accepted (m : GranMsg) : Prop :=
  m.hasPlatformAndSensor = true ∧ m.isSupportedScene = true ∧
    m.sensorIsLongList = false ∧ m.uriIsH5 = true ∧ m.fileExists = true

instance (m : GranMsg) : Decidable m.Accepted := by
  unfold GranMsg.Accepted; infer_instance

/-! ## Result reconciliation (`cspp_runner/post_cspp.py`)

`get_sdr_files` scans the CSPP working directory for SDR output files.
The directory is embedded as the list of grammar-conforming filenames it
contains.  The glob built from `VIIRS_SDR_FILE_PATTERN` constrains the
dataset field (per product bucket), the start date-and-second (when a
`start_time` parameter is given; `strftime('%Y%m%d_t%H%M%S')` drops the
fraction digit) and the source field (`cspp_dev`); the remaining fields
are wildcards (the platform parameter is stored under the misspelled
key `platform_short_name`, which the `{platform_shortname}` pattern
field never sees, so it constrains nothing).  Equality of the formatted
date-and-second string is embedded as equality of the whole-second
count on the time line. -/

/-- Glob matching for the dataset patterns (`SVM??`, `GM??O`, `SVI??`,
`GI??O`, `SVDNB`, `GDNBO`, `IVCDB`): literal characters and `?`
wildcards only, fixed length. -/
def globChars : List Char → List Char → Bool
  | [], [] => true
  | '?' :: ps, _ :: cs => globChars ps cs
  | p :: ps, c :: cs => p == c && globChars ps cs
  | _, _ => false

/-- Dataset-field glob match. -/
def globDataset (pattern : String) (dataset : String) : Bool :=
  globChars pattern.toList dataset.toList

/-- The whole-second count of a filename's encoded start instant, the
structured counterpart of its `d%Y%m%d_t%H%M%S` rendering. -/
def NppName.startFlatSec (n : NppName) : Int :=
  daysFromCivil n.date * 86400
    + (n.startTod.hour * 3600 + n.startTod.minute * 60 + n.startTod.second : Int)

/-- Whether a directory entry matches the globified
`VIIRS_SDR_FILE_PATTERN` for a given dataset pattern and optional
start second. -/
def matchesSdrGlob (pattern : String) (timeSec : Option Int) (n : NppName) : Bool :=
  globDataset pattern n.product
    && (match timeSec with
        | none => true
        | some sec => n.startFlatSec == sec)
    && n.source == "cspp_dev"

/-- Zero-padded decimal rendering (for the filename sort key). -/
def padNum (width : Nat) (n : Nat) : String :=
  let s := toString n
  String.mk (List.replicate (width - s.length) '0') ++ s

/-- Rendering of a `HHMMSSf` field. -/
def Tod.render (t : Tod) : String :=
  padNum 2 t.hour ++ padNum 2 t.minute ++ padNum 2 t.second ++ toString t.tenth

/-- The basename a grammar-conforming record renders to (used as the
`sorted()` key; CSPP SDR files carry the `.h5` extension). -/
def NppName.basename (n : NppName) : String :=
  n.product ++ "_" ++ n.platform ++ "_d" ++ padNum 4 n.date.year.toNat
    ++ padNum 2 n.date.month ++ padNum 2 n.date.day
    ++ "_t" ++ n.startTod.render ++ "_e" ++ n.endTod.render
    ++ "_b" ++ padNum 5 n.orbit ++ "_c" ++ n.creation ++ "_" ++ n.source ++ ".h5"

/-- Stable insertion of an element into a list sorted by `le`. -/
def insertBy (le : α → α → Bool) (a : α) : List α → List α
  | [] => [a]
  | b :: bs => if le a b then a :: b :: bs else b :: insertBy le a bs

/-- Stable insertion sort; embeds Python's `sorted()` (stable, total
lexicographic order on the path strings). -/
def sortBy (le : α → α → Bool) : List α → List α
  | [] => []
  | a :: as => insertBy le a (sortBy le as)

/-- Python `sorted()` over pathnames in one directory: lexicographic
order of the basenames. -/
def sortedByName (files : List NppName) : List NppName :=
  sortBy (fun a b => !decide (b.basename < a.basename)) files

/-- Embedding of `get_sdr_filenames_from_pattern_and_parameters`: glob
each product bucket, sort each bucket, and concatenate
mband ++ iband ++ dnb ++ ivcdb. -/
def get_sdr_filenames_from_pattern_and_parameters
    (sdr_dir : List NppName) (timeSec : Option Int) : List NppName :=
  let mband_files := sdr_dir.filter (matchesSdrGlob "SVM??" timeSec)
      ++ sdr_dir.filter (matchesSdrGlob "GM??O" timeSec)
  let iband_files := sdr_dir.filter (matchesSdrGlob "SVI??" timeSec)
      ++ sdr_dir.filter (matchesSdrGlob "GI??O" timeSec)
  let dnb_files := sdr_dir.filter (matchesSdrGlob "SVDNB" timeSec)
      ++ sdr_dir.filter (matchesSdrGlob "GDNBO" timeSec)
  let ivcdb_files := sdr_dir.filter (matchesSdrGlob "IVCDB" timeSec)
  sortedByName mband_files ++ sortedByName iband_files
    ++ sortedByName dnb_files ++ sortedByName ivcdb_files

/-- `EXPECTED_NUMBER_OF_SDR_FILES`. -/
def EXPECTED_NUMBER_OF_SDR_FILES : Nat := 28

/-- The tolerance sweep of `get_sdr_files`: starting from
`start_time - time_tolerance` and stepping one second at a time while
fewer than the expected number of files were found and the probed time
is below `start_time + time_tolerance`, accumulate the files matching
each probed second.  The fuel is the exact number of remaining probes
(`expected_start_time` advances by one second per iteration). -/
def sdrTimeSweep (sdr_dir : List NppName) (fuel : Nat) (expectedSec : Int)
    (found : List NppName) : List NppName :=
  match fuel with
  | 0 => found
  | f + 1 =>
    if found.length < EXPECTED_NUMBER_OF_SDR_FILES then
      sdrTimeSweep sdr_dir f (expectedSec + 1)
        (found ++ get_sdr_filenames_from_pattern_and_parameters sdr_dir (some expectedSec))
    else found

/-- Embedding of `get_sdr_files`: with no start time, or a zero
tolerance, a single glob; otherwise a first exact glob, returned when
it finds at least the expected number of files, and the one-second
tolerance sweep otherwise (the sweep restarts from an empty
accumulator, as the source does). -/
def get_sdr_files (sdr_dir : List NppName) (start_time : Option Datetime)
    (time_tolerance : Int) : List NppName :=
  match start_time with
  | none => get_sdr_filenames_from_pattern_and_parameters sdr_dir none
  | some st =>
    let stSec := st.toDs / 10
    if time_tolerance = 0 then
      get_sdr_filenames_from_pattern_and_parameters sdr_dir (some stSec)
    else
      let sdr_files := get_sdr_filenames_from_pattern_and_parameters sdr_dir (some stSec)
      if EXPECTED_NUMBER_OF_SDR_FILES ≤ sdr_files.length then sdr_files
      else sdrTimeSweep sdr_dir (2 * time_tolerance).toNat (stSec - time_tolerance) []

/-! ## Publishing (`cspp_runner/runner.py`)

`publish_sdr` builds the outbound message from a copy of the inbound
keeper metadata.  The metadata dictionary is embedded as an association
list with unique keys; `d[k] = v` replaces the binding in place or
appends it, `del d[k]` removes it. -/

/-- A metadata value: string, integer, datetime (total deciseconds), or
the dataset list of `{uri, uid}` records. -/
inductive MsgVal where
  | str (s : String)
  | int (n : Int)
  | time (ds : Int)
  | dataset (entries : List (String × String))
  deriving DecidableEq, Repr

/-- Inbound/outbound message metadata. -/
abbrev MsgData := List (String × MsgVal)

/-- Dictionary lookup. -/
def MsgData.get? : MsgData → String → Option MsgVal
  | [], _ => none
  | (k, v) :: rest, key => if k = key then some v else MsgData.get? rest key

/-- Dictionary deletion (`del d[k]`, tolerated when absent by the
`except KeyError` handlers around it). -/
def MsgData.erase : MsgData → String → MsgData
  | [], _ => []
  | (k, v) :: rest, key =>
    if k = key then MsgData.erase rest key else (k, v) :: MsgData.erase rest key

/-- Dictionary assignment (`d[k] = v`). -/
def MsgData.set : MsgData → String → MsgVal → MsgData
  | [], key, v => [(key, v)]
  | (k, w) :: rest, key, v =>
    if k = key then (key, v) :: rest else (k, w) :: MsgData.set rest key v

/-- One reconciled output file: the working directory it sits in plus
its grammar-conforming basename. -/
structure SdrFile where
  dir : String
  name : NppName
  deriving DecidableEq, Repr

/-- `urlunsplit(('ssh', hostname, path, '', ''))`. -/
def sshUri (hostname : String) (f : SdrFile) : String :=
  "ssh://" ++ hostname ++ f.dir ++ "/" ++ f.name.basename

/-- Outcome of a `publish_sdr` call. -/
inductive PublishOutcome where
  /-- `result_files` empty: early return, the publisher is not invoked -/
  | nothingToPublish
  /-- `to_send['orbit_number']` raised `KeyError` -/
  | keyError
  /-- a message was sent on the given topic -/
  | published (topic : String) (data : MsgData)
  deriving DecidableEq, Repr

/-- Embedding of `publish_sdr` (`cspp_runner/runner.py`): on a
non-empty result list, copy the inbound metadata, drop `uri` and `uid`,
rewrite the orbit number when the resolved orbit is positive (keeping
the inbound value under `orig_orbit_number`), attach the `{uri, uid}`
dataset entries, the `SDR`/`HDF5`/`1B` markers, and the min start and
max end time parsed from the result file basenames. -/
def publish_sdr (hostname : String) (publish_topic : String)
    (message_data : MsgData) (orbit_number : Int)
    (result_files : List SdrFile) : PublishOutcome :=
  if result_files.isEmpty then .nothingToPublish
  else
    let to_send := (message_data.erase "uri").erase "uid"
    let withOrbit : Option MsgData :=
      if 0 < orbit_number then
        match to_send.get? "orbit_number" with
        | none => none
        | some orig =>
          some ((to_send.set "orig_orbit_number" orig).set
            "orbit_number" (.int orbit_number))
      else some to_send
    match withOrbit with
    | none => .keyError
    | some to_send =>
      let entries := result_files.map
        (fun f => (sshUri hostname f, f.name.basename))
      let to_send := to_send.set "dataset" (.dataset entries)
      let start_times := result_files.map (fun f => (get_sdr_times f.name).1.toDs)
      let end_times := result_files.map (fun f => (get_sdr_times f.name).2.toDs)
      let to_send := to_send.set "format" (.str "SDR")
      let to_send := to_send.set "type" (.str "HDF5")
      let to_send := to_send.set "data_processing_level" (.str "1B")
      let to_send := match start_times, end_times with
        | t :: ts, u :: us =>
          (to_send.set "start_time" (.time (ts.foldl min t))).set
            "end_time" (.time (us.foldl max u))
        | _, _ => to_send  -- unreachable: result_files is non-empty
      let topic := "/" ++ publish_topic ++ "/SDR/1B/polar/direct_readout"
      .published topic to_send

/-- The `run_cspp` of `cspp_runner/runner.py`: launches the executable,
drains its stdout and stderr, `poll()`s it and returns `None` — the
exit code is read but neither returned nor inspected.  Its only
influence on the rest of `spawn_cspp` is through the files the
executable left in the working directory, which the caller scans
afterwards. -/
def run_cspp (exit_code : Int) : Unit := ()

/-- The result of a `spawn_cspp` call: the reconciled files and, when
`publish_sdr` was reached at all, its outcome. -/
structure SpawnResult where
  result_files : List NppName
  publish : Option PublishOutcome
  deriving DecidableEq, Repr

/-- Embedding of `spawn_cspp` (`cspp_runner/runner.py`): run CSPP (the
exit code is discarded by `run_cspp`), scan the working directory for
SDR files near the granule's start time, return an empty result with no
publication when none are found, and otherwise publish. -/
def spawn_cspp (hostname : String) (publish_topic : String)
    (message_data : MsgData) (orbit_number : Int)
    (granule_time_tolerance : Int) (current_granule : NppName)
    (exit_code : Int) (workdir : String) (workdir_files : List NppName) :
    SpawnResult :=
  let _cspp := run_cspp exit_code
  let start_time := get_datetime_from_filename current_granule
  let new_result_files :=
    get_sdr_files workdir_files (some start_time) granule_time_tolerance
  if new_result_files.length = 0 then ⟨[], none⟩
  else
    ⟨new_result_files,
     some (publish_sdr hostname publish_topic message_data orbit_number
       (new_result_files.map (fun n => ⟨workdir, n⟩)))⟩

/-- Observer: whether an outcome actually sent a message. -/
def PublishOutcome.isPublished : PublishOutcome → Bool
  | .published _ _ => true
  | _ => false

/-- Observer: the topic of a published outcome. -/
def PublishOutcome.topicOf : PublishOutcome → Option String
  | .published t _ => some t
  | _ => none

/-- Observer: the metadata of a published outcome. -/
def PublishOutcome.dataOf : PublishOutcome → Option MsgData
  | .published _ d => some d
  | _ => none

/-! ## Concrete instances used by counterexamples and witnesses -/

/-- An SDR-style filename with start time 2018-01-21 09:03:38.2 (after
the example in the source docstrings). -/
def tolExampleA : NppName :=
  ⟨"SVM11", "npp", ⟨2018, 1, 21⟩, ⟨9, 3, 38, 2⟩, ⟨9, 5, 2, 4⟩, 32305,
    "20180121091145126446", "cspp_dev"⟩

/-- A filename whose start time is exactly 10 seconds after
`tolExampleA`. -/
def tolExampleB : NppName :=
  ⟨"SVM12", "npp", ⟨2018, 1, 21⟩, ⟨9, 3, 48, 2⟩, ⟨9, 5, 12, 4⟩, 32305,
    "20180121091145126447", "cspp_dev"⟩

/-- The midnight-wraparound filename of the spec: start time-of-day
23:59:09.9, end time-of-day 00:00:34.1. -/
def wrapExample : NppName :=
  ⟨"RNSCA-RVIRS", "npp", ⟨2021, 12, 17⟩, ⟨23, 59, 9, 9⟩, ⟨0, 0, 34, 1⟩, 1,
    "20211217101206466000", "dev"⟩

/-- Five RDR granule filenames 84 seconds apart (each spanning 86 s). -/
def g1ex : NppName :=
  ⟨"RNSCA-RVIRS", "npp", ⟨2021, 12, 17⟩, ⟨10, 0, 0, 0⟩, ⟨10, 1, 26, 0⟩, 1, "c1", "dev"⟩

def g2ex : NppName :=
  ⟨"RNSCA-RVIRS", "npp", ⟨2021, 12, 17⟩, ⟨10, 1, 24, 0⟩, ⟨10, 2, 50, 0⟩, 1, "c2", "dev"⟩

def g3ex : NppName :=
  ⟨"RNSCA-RVIRS", "npp", ⟨2021, 12, 17⟩, ⟨10, 2, 48, 0⟩, ⟨10, 4, 14, 0⟩, 1, "c3", "dev"⟩

def g4ex : NppName :=
  ⟨"RNSCA-RVIRS", "npp", ⟨2021, 12, 17⟩, ⟨10, 4, 12, 0⟩, ⟨10, 5, 38, 0⟩, 1, "c4", "dev"⟩

def g5ex : NppName :=
  ⟨"RNSCA-RVIRS", "npp", ⟨2021, 12, 17⟩, ⟨10, 5, 36, 0⟩, ⟨10, 7, 2, 0⟩, 1, "c5", "dev"⟩

/-- A fully valid granule-arrival message for an RDR file, with an
86-second declared span. -/
def mkShortMsg (n : NppName) (startDs : Int) : GranMsg :=
  ⟨true, true, false, "Suomi-NPP", startDs, some (startDs + 860), some 1,
    true, true, n⟩

def m1ex : GranMsg := mkShortMsg g1ex 0
def m2ex : GranMsg := mkShortMsg g2ex 840
def m3ex : GranMsg := mkShortMsg g3ex 1680
def m4ex : GranMsg := mkShortMsg g4ex 2520
def m5ex : GranMsg := mkShortMsg g5ex 3360

/-- A valid message whose declared span is 240.5 seconds (2405
deciseconds): it exceeds 4 minutes, but its whole-second count is
240. -/
def longBoundaryMsg : GranMsg :=
  ⟨true, true, false, "Suomi-NPP", 0, some 2405, some 1, true, true, g1ex⟩

/-- A valid message whose declared span is 260 seconds. -/
def fullSwathMsg : GranMsg :=
  ⟨true, true, false, "Suomi-NPP", 0, some 2600, some 1, true, true, g1ex⟩

/-- An RDR granule whose parsed start time is 2021-12-17 09:59:00.3. -/
def c3granule : NppName :=
  ⟨"RNSCA-RVIRS", "npp", ⟨2021, 12, 17⟩, ⟨9, 59, 0, 3⟩, ⟨10, 11, 48, 4⟩, 1,
    "20211217101206466000", "dev"⟩

/-- An SDR output file whose encoded start second (09:59:00) matches
`c3granule`. -/
def c3sdr : NppName :=
  ⟨"SVM01", "npp", ⟨2021, 12, 17⟩, ⟨9, 59, 0, 0⟩, ⟨10, 0, 26, 4⟩, 1,
    "20211217110000000000", "cspp_dev"⟩

/-- A second SDR output file for the same granule (geolocation). -/
def c9sdr2 : NppName :=
  ⟨"GMTCO", "npp", ⟨2021, 12, 17⟩, ⟨9, 59, 0, 0⟩, ⟨10, 0, 27, 0⟩, 1,
    "20211217110000000001", "cspp_dev"⟩

/-- Inbound keeper metadata for the publish examples. -/
def c3msgdata : MsgData :=
  [("orbit_number", .int 5), ("uri", .str "ssh://in/rdr.h5"),
   ("uid", .str "rdr.h5"), ("sensor", .str "viirs")]

/-! ## Helper lemmas -/

lemma isLeap_iff (y : Int) :
    Date.isLeap y = true ↔ ((y % 4 = 0 ∧ ¬ y % 100 = 0) ∨ y % 400 = 0) := by
  unfold Date.isLeap
  simp only [Bool.or_eq_true, Bool.and_eq_true, beq_iff_eq, bne_iff_ne, ne_eq]

lemma leapsBefore_succ (y : Int) :
    leapsBefore (y + 1) - leapsBefore y =
      (if Date.isLeap y then 1 else 0) := by
  by_cases hL : Date.isLeap y
  · rw [if_pos hL]
    have h := (isLeap_iff y).mp hL
    unfold leapsBefore
    omega
  · rw [if_neg hL]
    have h : ¬ ((y % 4 = 0 ∧ ¬ y % 100 = 0) ∨ y % 400 = 0) :=
      fun hc => hL ((isLeap_iff y).mpr hc)
    unfold leapsBefore
    omega

/-- Crossing to the next civil day advances the day number by one. -/
lemma daysFromCivil_next (d : Date) (hv : d.Valid) :
    daysFromCivil d.next = daysFromCivil d + 1 := by
  obtain ⟨hm1, hm12, hd1, hdm⟩ := hv
  unfold Date.next
  by_cases hday : d.day < d.daysInMonth
  · simp only [hday, if_true]
    unfold daysFromCivil
    push_cast
    ring
  · simp only [hday, if_false]
    have hde : d.day = d.daysInMonth := le_antisymm hdm (by omega)
    by_cases hmon : d.month < 12
    · simp only [hmon, if_true]
      unfold daysFromCivil
      have key : ∀ (l : Bool) (m : Nat), m < 12 → 1 ≤ m →
          daysBeforeMonth l (m + 1) = daysBeforeMonth l m + daysInMonthOf l m := by
        decide
      have hk := key (Date.isLeap d.year) d.month hmon hm1
      rw [hde]
      unfold Date.daysInMonth
      simp only [hk]
      push_cast
      ring
    · have hm12' : d.month = 12 := by omega
      simp only [hmon, if_false]
      unfold daysFromCivil
      have hl := leapsBefore_succ d.year
      have hbm : ∀ l : Bool, daysBeforeMonth l 1 = 0 := by decide
      have hbm12 : ∀ l : Bool,
          (daysBeforeMonth l 12 : Int) + (daysInMonthOf l 12 : Int) =
            365 + (if l then 1 else 0) := by decide
      rw [hde]
      unfold Date.daysInMonth
      simp only [hm12', hbm]
      have h12 := hbm12 (Date.isLeap d.year)
      push_cast at h12 ⊢
      omega

lemma Tod.toDs_lt_day {t : Tod} (h : t.Valid) : t.toDs < 864000 := by
  obtain ⟨h1, h2, h3, h4⟩ := h
  unfold Tod.toDs
  omega

/-- On valid times of day, comparing the seven-digit numerals agrees
with comparing deciseconds. -/
lemma Tod.numeral_lt_iff_toDs_lt {a b : Tod} (ha : a.Valid) (hb : b.Valid) :
    a.numeral < b.numeral ↔ a.toDs < b.toDs := by
  obtain ⟨a1, a2, a3, a4⟩ := ha
  obtain ⟨b1, b2, b3, b4⟩ := hb
  unfold Tod.numeral Tod.toDs
  omega

lemma Datetime.addDay_toDs {t : Datetime} (h : t.date.Valid) :
    t.addDay.toDs = t.toDs + 864000 := by
  unfold Datetime.addDay Datetime.toDs
  simp only [daysFromCivil_next _ h]
  ring

/-- Splitting a valid time of day into fields undoes `Tod.toDs`. -/
lemma todOfDs_toDs {t : Tod} (h : t.Valid) : todOfDs t.toDs = t := by
  obtain ⟨hh, mm, ss, ff⟩ := t
  obtain ⟨h1, h2, h3, h4⟩ := h
  dsimp only at h1 h2 h3 h4
  simp only [todOfDs, Tod.toDs, Tod.mk.injEq]
  refine ⟨?_, ?_, ?_, ?_⟩ <;> omega

/-- Comparison of two instants on the same civil date is comparison of
their times of day. -/
lemma Datetime.toDs_same_date_lt {d : Date} {a b : Nat} :
    Datetime.toDs ⟨d, a⟩ < Datetime.toDs ⟨d, b⟩ ↔ a < b := by
  unfold Datetime.toDs
  dsimp only
  omega

/-- Unfolded form of `get_sdr_times`. -/
lemma get_sdr_times_eq (n : NppName) :
    get_sdr_times n =
      (⟨n.date, n.startTod.toDs⟩,
        if Datetime.toDs ⟨n.date, n.endTod.toDs⟩
            < Datetime.toDs ⟨n.date, n.startTod.toDs⟩
        then Datetime.addDay ⟨n.date, n.endTod.toDs⟩
        else ⟨n.date, n.endTod.toDs⟩) := rfl

/-! ## Claim C6 — tolerance comparison in `is_same_granule` -/

/-- Claim C6, counterexample: two grammar-conforming filenames whose
parsed start times differ by exactly 10 seconds (100 deciseconds).
With tolerance 10 the claim (absolute difference ≤ tolerance) demands
`true`, but `is_same_granule` compares with strict `<` and returns
`false`. -/
theorem c6_counterexample :
    ¬ (is_same_granule tolExampleA tolExampleB 10 = true ↔
        (((get_datetime_from_filename tolExampleA).toDs
            - (get_datetime_from_filename tolExampleB).toDs).natAbs : Int)
          ≤ 10 * 10) := by
  decide

/-- Claim C6 (amended): for any two filenames matching the granule
grammar and any tolerance `t`, `is_same_granule(a, b, t)` returns true
iff the absolute difference of their parsed start times is strictly
less than `t` seconds (strictly less than `10 * t` deciseconds). -/
theorem c6_is_same_granule_strict (a b : NppName) (t : Int) :
    is_same_granule a b t = true ↔
      (((get_datetime_from_filename a).toDs
          - (get_datetime_from_filename b).toDs).natAbs : Int) < 10 * t := by
  unfold is_same_granule
  simp only [decide_eq_true_eq]

/-! ## Claim C7 — midnight wraparound in `get_sdr_times` -/

/-- Claim C7, counterexample: the spec's own instance is miscomputed.
A granule with start time-of-day 23:59:09.9 and end time-of-day
00:00:34.1 parses to `end_time - start_time` = 842 deciseconds =
84.2 seconds (50.1 s up to midnight plus 34.1 s), not ≈ 24.2 s
(242 deciseconds) as claimed. -/
theorem c7_counterexample :
    (get_sdr_times wrapExample).2.toDs - (get_sdr_times wrapExample).1.toDs
        = 842 ∧
    ¬ ((get_sdr_times wrapExample).2.toDs
        - (get_sdr_times wrapExample).1.toDs = 242) := by
  constructor
  · decide
  · decide

/-- Claim C7 (amended): for every grammar-conforming filename in which
the encoded end time-of-day is numerically smaller than the start
time-of-day, parsing adds 24 hours to the end time, so the parsed key
always satisfies `end_time ≥ start_time`; the spec's concrete instance
(start 23:59:09.9, end 00:00:34.1) parses to a positive span of 84.2 s,
not 24.2 s. -/
theorem c7_wraparound_adds_day (n : NppName) (hv : n.Valid) :
    (n.endTod.numeral < n.startTod.numeral →
      (get_sdr_times n).2.toDs = Datetime.toDs ⟨n.date, n.endTod.toDs⟩ + 864000) ∧
    (get_sdr_times n).1.toDs ≤ (get_sdr_times n).2.toDs := by
  obtain ⟨hd, hs, he⟩ := hv
  rw [get_sdr_times_eq]
  dsimp only
  by_cases hc : Datetime.toDs ⟨n.date, n.endTod.toDs⟩
      < Datetime.toDs ⟨n.date, n.startTod.toDs⟩
  · rw [if_pos hc]
    have hadd : (Datetime.addDay ⟨n.date, n.endTod.toDs⟩).toDs
        = Datetime.toDs ⟨n.date, n.endTod.toDs⟩ + 864000 :=
      Datetime.addDay_toDs hd
    refine ⟨fun _ => hadd, ?_⟩
    rw [hadd]
    have hlt := Tod.toDs_lt_day hs
    unfold Datetime.toDs at *
    dsimp only at *
    omega
  · rw [if_neg hc]
    constructor
    · intro hnum
      exact absurd (Datetime.toDs_same_date_lt.mpr
        ((Tod.numeral_lt_iff_toDs_lt he hs).mp hnum)) hc
    · omega

/-- Claim C7, witness: the amended theorem applied to the concrete
midnight-wraparound filename, whose parsed span is 842 deciseconds. -/
theorem c7_witness :
    wrapExample.Valid ∧
    ((get_sdr_times wrapExample).2.toDs - (get_sdr_times wrapExample).1.toDs
      = 842) ∧
    ((wrapExample.endTod.numeral < wrapExample.startTod.numeral →
      (get_sdr_times wrapExample).2.toDs
        = Datetime.toDs ⟨wrapExample.date, wrapExample.endTod.toDs⟩ + 864000) ∧
    (get_sdr_times wrapExample).1.toDs ≤ (get_sdr_times wrapExample).2.toDs) :=
  ⟨by decide, by decide, c7_wraparound_adds_day wrapExample (by decide)⟩

/-! ## Claim C8 — stamp round trip -/

/-- Claim C8: for every granule filename matching the NPP-stamp
grammar, parsing it with `get_npp_stamp` and re-encoding the stamp with
`NPPStamp.__str__` reproduces an equivalent key: re-parsing the
re-encoded fields yields the same platform, start time, end time and
orbit number (here: the same stamp record). -/
theorem c8_stamp_roundtrip (sf : StampFields) (hv : sf.Valid) :
    get_npp_stamp (get_npp_stamp sf).encodeFields = get_npp_stamp sf := by
  obtain ⟨hd, hs, he⟩ := hv
  have henc : (get_npp_stamp sf).encodeFields = sf := by
    unfold get_npp_stamp dte2time NPPStamp.encodeFields
    by_cases hc : Datetime.toDs ⟨sf.date, sf.endTod.toDs⟩
        < Datetime.toDs ⟨sf.date, sf.startTod.toDs⟩
    · simp only [hc, if_true]
      dsimp only [Datetime.addDay]
      simp only [todOfDs_toDs hs, todOfDs_toDs he]
    · simp only [hc, if_false]
      simp only [todOfDs_toDs hs, todOfDs_toDs he]
  rw [henc]

/-- Claim C8, witness: the round trip at the concrete wraparound
filename (whose stamp actually crosses midnight). -/
theorem c8_witness :
    (wrapExample.stampFields).Valid ∧
    get_npp_stamp (get_npp_stamp wrapExample.stampFields).encodeFields
      = get_npp_stamp wrapExample.stampFields :=
  ⟨by decide, c8_stamp_roundtrip wrapExample.stampFields (by decide)⟩

/-! ## Claim C5 — end-of-stream flush -/

/-- Claim C5: on an end-of-stream signal with more than 2 buffered
granules the state machine drops the oldest buffered granule, takes the
second-oldest of the remaining as keeper, emits one final unit over the
remaining buffer, and returns stop (`False`); with 2 or fewer buffered
it emits nothing and returns continue (`True`). -/
theorem c5_end_of_stream (s : ProcState) :
    (∀ a b c rest, s.glist = a :: b :: c :: rest →
      s.run .eos = some
        ({ s with
             glist := b :: c :: rest,
             cspp_results := s.cspp_results ++ [⟨c, b :: c :: rest⟩] }, false)) ∧
    (s.glist.length ≤ 2 → s.run .eos = some (s, true)) := by
  constructor
  · intro a b c rest hgl
    simp [ProcState.run, hgl]
  · intro hlen
    have h2 : ¬ 2 < s.glist.length := by omega
    simp [ProcState.run, h2]

/-- Claim C5, witness: end-of-stream on a session holding three
buffered granules drops the oldest, keeps the second-oldest of the
remaining two as keeper, emits once and stops; end-of-stream on the
fresh session continues silently. -/
theorem c5_witness :
    ProcState.run { initState with glist := [g1ex, g2ex, g3ex] } .eos
      = some ({ initState with
                  glist := [g2ex, g3ex],
                  cspp_results := [⟨g3ex, [g2ex, g3ex]⟩] }, false) ∧
    initState.run .eos = some (initState, true) := by
  constructor
  · have h := (c5_end_of_stream { initState with glist := [g1ex, g2ex, g3ex] }).1
      g1ex g2ex g3ex [] rfl
    simpa using h
  · exact (c5_end_of_stream initState).2 (by decide)

/-! ## Window-machine helper lemmas -/
lemma updateOrbit_glist (s : ProcState) (o : Option Int) :
    (s.updateOrbit o).glist = s.glist := rfl

lemma updateOrbit_evictions (s : ProcState) (o : Option Int) :
    (s.updateOrbit o).evictions = s.evictions := rfl

lemma processGranule_nil (s : ProcState) (m : GranMsg) (hgl : s.glist = []) :
    s.processGranule m =
      (if 240 < timedeltaSeconds (m.endTimeDs.getD (m.startTimeDs + 860) - m.startTimeDs)
       then some (ProcState.emitUnit
         { s.updateOrbit m.orbitNumber with glist := [m.rdrName], fullswath := true }
         m.rdrName)
       else some ({ s.updateOrbit m.orbitNumber with glist := [m.rdrName] }, true)) := by
  simp [ProcState.processGranule, updateOrbit_glist, hgl]

lemma processGranule_one (s : ProcState) (m : GranMsg) (a : NppName)
    (hgl : s.glist = [a]) :
    s.processGranule m =
      some (ProcState.emitUnit
        { s.updateOrbit m.orbitNumber with glist := [a, m.rdrName] } a) := by
  simp [ProcState.processGranule, updateOrbit_glist, hgl]

lemma processGranule_two (s : ProcState) (m : GranMsg) (a b : NppName)
    (hgl : s.glist = [a, b]) :
    s.processGranule m =
      some (ProcState.emitUnit
        { s.updateOrbit m.orbitNumber with glist := [a, b, m.rdrName] } b) := by
  simp [ProcState.processGranule, updateOrbit_glist, hgl]

lemma processGranule_three (s : ProcState) (m : GranMsg) (a b c : NppName)
    (hgl : s.glist = [a, b, c]) :
    s.processGranule m =
      some (ProcState.emitUnit
        { s.updateOrbit m.orbitNumber with
            glist := [b, c, m.rdrName],
            evictions := s.evictions + 1 } c) := by
  simp [ProcState.processGranule, updateOrbit_glist, updateOrbit_evictions, hgl]

lemma run_accepted (s : ProcState) (m : GranMsg) (hm : m.Accepted) :
    s.run (.msg m) = (s.noteMessage m).processGranule m := by
  obtain ⟨h1, h2, h3, h4, h5⟩ := hm
  simp [ProcState.run, h1, h2, h3, h4, h5]

lemma emitUnit_eq (s : ProcState) (k : NppName) :
    s.emitUnit k =
      ({ s with
           pass_start_time := if s.pass_start_time.isNone
             then some (get_datetime_from_filename k) else s.pass_start_time,
           cspp_results := s.cspp_results ++ [⟨k, s.glist⟩] },
        !s.fullswath) := by
  unfold ProcState.emitUnit
  by_cases hp : s.pass_start_time.isNone <;>
    by_cases hf : s.fullswath <;> simp [hp, hf]

lemma run_eos_three (s : ProcState) (a b c : NppName) (rest : List NppName)
    (hgl : s.glist = a :: b :: c :: rest) :
    s.run .eos = some
      ({ s with
           glist := b :: c :: rest,
           cspp_results := s.cspp_results ++ [⟨c, b :: c :: rest⟩] }, false) := by
  simp [ProcState.run, hgl]

lemma run_eos_small (s : ProcState) (h : s.glist.length ≤ 2) :
    s.run .eos = some (s, true) := by
  have h2 : ¬ 2 < s.glist.length := by omega
  simp [ProcState.run, h2]

lemma run_window (s : ProcState) (e : RunEvent) (h : s.glist.length ≤ 3) :
    ∃ p, s.run e = some p ∧ p.1.glist.length ≤ 3 := by
  cases e with
  | eos =>
    by_cases h2 : 2 < s.glist.length
    · have h3 : s.glist.length = 3 := by omega
      obtain ⟨a, b, c, hgl⟩ := List.length_eq_three.mp h3
      rw [run_eos_three s a b c [] hgl]
      exact ⟨_, rfl, by simp⟩
    · rw [run_eos_small s (by omega)]
      exact ⟨_, rfl, h⟩
  | msg m =>
    by_cases h1 : m.hasPlatformAndSensor = true
    case neg =>
      simpa [ProcState.run, h1] using h
    by_cases hsup : m.isSupportedScene = true
    case neg =>
      simpa [ProcState.run, h1, hsup] using h
    by_cases hlist : m.sensorIsLongList = true
    case pos =>
      simpa [ProcState.run, h1, hsup, hlist] using h
    by_cases hh5 : m.uriIsH5 = true
    case neg =>
      simpa [ProcState.run, h1, hsup, hlist, hh5, ProcState.noteMessage] using h
    by_cases hex : m.fileExists = true
    case neg =>
      simpa [ProcState.run, h1, hsup, hlist, hh5, hex, ProcState.noteMessage] using h
    have hlf : m.sensorIsLongList = false := by
      revert hlist; cases m.sensorIsLongList <;> simp
    have hacc : m.Accepted := ⟨h1, hsup, hlf, hh5, hex⟩
    rw [run_accepted s m hacc]
    have hgl' : (s.noteMessage m).glist = s.glist := rfl
    have hl : s.glist.length = 0 ∨ s.glist.length = 1 ∨ s.glist.length = 2
        ∨ s.glist.length = 3 := by omega
    rcases hl with h0 | h1l | h2l | h3l
    · rw [List.length_eq_zero] at h0
      rw [processGranule_nil _ m (hgl'.trans h0)]
      by_cases hc : 240 < timedeltaSeconds
          (m.endTimeDs.getD (m.startTimeDs + 860) - m.startTimeDs)
      · rw [if_pos hc]
        exact ⟨_, rfl, by simp [emitUnit_eq]⟩
      · rw [if_neg hc]
        exact ⟨_, rfl, by simp⟩
    · obtain ⟨a, ha⟩ := List.length_eq_one.mp h1l
      rw [processGranule_one _ m a (hgl'.trans ha)]
      exact ⟨_, rfl, by simp [emitUnit_eq]⟩
    · obtain ⟨a, b, hab⟩ := List.length_eq_two.mp h2l
      rw [processGranule_two _ m a b (hgl'.trans hab)]
      exact ⟨_, rfl, by simp [emitUnit_eq]⟩
    · obtain ⟨a, b, c, habc⟩ := List.length_eq_three.mp h3l
      rw [processGranule_three _ m a b c (hgl'.trans habc)]
      exact ⟨_, rfl, by simp [emitUnit_eq]⟩

lemma runLoop_window (events : List RunEvent) :
    ∀ (s : ProcState), s.glist.length ≤ 3 →
      ∃ s', runLoop s events = some s' ∧ s'.glist.length ≤ 3 := by
  induction events with
  | nil => exact fun s h => ⟨s, rfl, h⟩
  | cons e es ih =>
    intro s h
    obtain ⟨⟨s', status⟩, hrun, hlen⟩ := run_window s e h
    cases status with
    | true =>
      obtain ⟨s'', hloop, hlen'⟩ := ih s' hlen
      exact ⟨s'', by simp [runLoop, hrun, hloop], hlen'⟩
    | false =>
      obtain ⟨s'', hloop, hlen'⟩ := ih s'.initialise (by simp [ProcState.initialise])
      exact ⟨s'', by simp [runLoop, hrun, hloop], hlen'⟩

lemma run_step_nil (s : ProcState) (m : GranMsg) (hm : m.Accepted)
    (hshort : ¬ 240 < timedeltaSeconds
      (m.endTimeDs.getD (m.startTimeDs + 860) - m.startTimeDs))
    (hgl : s.glist = []) :
    s.run (.msg m) = some
      ({ (s.noteMessage m).updateOrbit m.orbitNumber with
           glist := [m.rdrName] }, true) := by
  rw [run_accepted s m hm, processGranule_nil (s.noteMessage m) m hgl, if_neg hshort]

lemma run_step_fullswath (s : ProcState) (m : GranMsg) (hm : m.Accepted)
    (hlong : 240 < timedeltaSeconds
      (m.endTimeDs.getD (m.startTimeDs + 860) - m.startTimeDs))
    (hgl : s.glist = []) :
    s.run (.msg m) = some
      ({ (s.noteMessage m).updateOrbit m.orbitNumber with
           fullswath := true,
           glist := [m.rdrName],
           pass_start_time := if s.pass_start_time.isNone
             then some (get_datetime_from_filename m.rdrName)
             else s.pass_start_time,
           cspp_results := s.cspp_results ++ [⟨m.rdrName, [m.rdrName]⟩] },
        false) := by
  rw [run_accepted s m hm, processGranule_nil (s.noteMessage m) m hgl, if_pos hlong, emitUnit_eq]
  simp [ProcState.noteMessage, ProcState.updateOrbit]

lemma run_step_one (s : ProcState) (m : GranMsg) (a : NppName) (hm : m.Accepted)
    (hfs : s.fullswath = false) (hgl : s.glist = [a]) :
    s.run (.msg m) = some
      ({ (s.noteMessage m).updateOrbit m.orbitNumber with
           glist := [a, m.rdrName],
           pass_start_time := if s.pass_start_time.isNone
             then some (get_datetime_from_filename a) else s.pass_start_time,
           cspp_results := s.cspp_results ++ [⟨a, [a, m.rdrName]⟩] }, true) := by
  rw [run_accepted s m hm, processGranule_one (s.noteMessage m) m a hgl, emitUnit_eq]
  simp [ProcState.noteMessage, ProcState.updateOrbit, hfs]

lemma run_step_two (s : ProcState) (m : GranMsg) (a b : NppName) (hm : m.Accepted)
    (hfs : s.fullswath = false) (hgl : s.glist = [a, b]) :
    s.run (.msg m) = some
      ({ (s.noteMessage m).updateOrbit m.orbitNumber with
           glist := [a, b, m.rdrName],
           pass_start_time := if s.pass_start_time.isNone
             then some (get_datetime_from_filename b) else s.pass_start_time,
           cspp_results := s.cspp_results ++ [⟨b, [a, b, m.rdrName]⟩] }, true) := by
  rw [run_accepted s m hm, processGranule_two (s.noteMessage m) m a b hgl, emitUnit_eq]
  simp [ProcState.noteMessage, ProcState.updateOrbit, hfs]

lemma run_step_three (s : ProcState) (m : GranMsg) (a b c : NppName) (hm : m.Accepted)
    (hfs : s.fullswath = false) (hgl : s.glist = [a, b, c]) :
    s.run (.msg m) = some
      ({ (s.noteMessage m).updateOrbit m.orbitNumber with
           glist := [b, c, m.rdrName],
           evictions := s.evictions + 1,
           pass_start_time := if s.pass_start_time.isNone
             then some (get_datetime_from_filename c) else s.pass_start_time,
           cspp_results := s.cspp_results ++ [⟨c, [b, c, m.rdrName]⟩] }, true) := by
  rw [run_accepted s m hm, processGranule_three (s.noteMessage m) m a b c hgl, emitUnit_eq]
  simp [ProcState.noteMessage, ProcState.updateOrbit, hfs]

lemma runLoop_cons_true (s s' : ProcState) (e : RunEvent) (es : List RunEvent)
    (h : s.run e = some (s', true)) :
    runLoop s (e :: es) = runLoop s' es := by
  simp [runLoop, h]

lemma runLoop_cons_false (s s' : ProcState) (e : RunEvent) (es : List RunEvent)
    (h : s.run e = some (s', false)) :
    runLoop s (e :: es) = runLoop s'.initialise es := by
  simp [runLoop, h]

/-! ## Claim C10 — the hard-failure branch is unreachable -/

/-- Claim C10: starting from an empty window, the `RuntimeError` raise
for more than 4 buffered granules is unreachable: every event sequence
runs to completion (`runLoop` never returns `none`) and leaves at most
3 buffered granules on entry to the next event. -/
theorem c10_overflow_unreachable (events : List RunEvent) :
    ∃ s', runLoop initState events = some s' ∧ s'.glist.length ≤ 3 :=
  runLoop_window events initState (by decide)

/-! ## Claim C2 — sliding-window bound and eviction count -/

/-- Claim C2, counterexample: feeding 5 sequential valid short
granule-arrived events into a fresh session (no emission-driven reset
occurs: every status stays `True`) performs exactly two evictions — one
when the 4th granule arrives and one when the 5th does — not exactly
one as claimed. -/
theorem c2_counterexample :
    Option.map (fun s => s.evictions) (runLoop initState
        [.msg m1ex, .msg m2ex, .msg m3ex, .msg m4ex, .msg m5ex]) = some 2 ∧
    Option.map (fun s => s.evictions) (runLoop initState
        [.msg m1ex, .msg m2ex, .msg m3ex, .msg m4ex, .msg m5ex]) ≠ some 1 := by
  constructor
  · decide
  · decide

/-- Claim C2 (amended): at every observable point the buffered window
holds at most 4 granules (after every transition in fact at most 3: an
append that reaches 4 immediately evicts the oldest), and feeding 5
sequential granule-arrived events without any emission-driven reset
results in exactly two evictions having occurred (at the 4th and the
5th event). -/
theorem c2_window_bound_two_evictions :
    (∀ (events : List RunEvent) (s' : ProcState),
        runLoop initState events = some s' → s'.glist.length ≤ 4) ∧
    (∀ m1 m2 m3 m4 m5 : GranMsg,
      m1.Accepted → m2.Accepted → m3.Accepted → m4.Accepted → m5.Accepted →
      (¬ 240 < timedeltaSeconds
        (m1.endTimeDs.getD (m1.startTimeDs + 860) - m1.startTimeDs)) →
      (¬ 240 < timedeltaSeconds
        (m2.endTimeDs.getD (m2.startTimeDs + 860) - m2.startTimeDs)) →
      (¬ 240 < timedeltaSeconds
        (m3.endTimeDs.getD (m3.startTimeDs + 860) - m3.startTimeDs)) →
      (¬ 240 < timedeltaSeconds
        (m4.endTimeDs.getD (m4.startTimeDs + 860) - m4.startTimeDs)) →
      (¬ 240 < timedeltaSeconds
        (m5.endTimeDs.getD (m5.startTimeDs + 860) - m5.startTimeDs)) →
      Option.map (fun s => s.evictions) (runLoop initState
        [.msg m1, .msg m2, .msg m3, .msg m4, .msg m5]) = some 2) := by
  constructor
  · intro events s' h
    obtain ⟨s'', h2, hlen⟩ := runLoop_window events initState (by decide)
    rw [h] at h2
    injection h2 with he
    subst he
    omega
  · intro m1 m2 m3 m4 m5 ha1 ha2 ha3 ha4 ha5 hs1 hs2 hs3 hs4 hs5
    rw [runLoop_cons_true _ _ _ _ (run_step_nil initState m1 ha1 hs1 rfl)]
    rw [runLoop_cons_true _ _ _ _ (run_step_one _ m2 _ ha2 rfl rfl)]
    rw [runLoop_cons_true _ _ _ _ (run_step_two _ m3 _ _ ha3 rfl rfl)]
    rw [runLoop_cons_true _ _ _ _ (run_step_three _ m4 _ _ _ ha4 rfl rfl)]
    rw [runLoop_cons_true _ _ _ _ (run_step_three _ m5 _ _ _ ha5 rfl rfl)]
    rfl

/-- Claim C2, witness: the window bound at a concrete point and the
two-eviction count on five concrete valid short messages. -/
theorem c2_witness :
    initState.glist.length ≤ 4 ∧
    Option.map (fun s => s.evictions) (runLoop initState
      [.msg m1ex, .msg m2ex, .msg m3ex, .msg m4ex, .msg m5ex]) = some 2 :=
  ⟨c2_window_bound_two_evictions.1 [] initState rfl,
   c2_window_bound_two_evictions.2 m1ex m2ex m3ex m4ex m5ex
     (by decide) (by decide) (by decide) (by decide) (by decide)
     (by decide) (by decide) (by decide) (by decide) (by decide)⟩

/-! ## Claim C1 — the three-event session -/

/-- Claim C1, counterexample: feeding G1, G2, G3 yields two emissions,
the first with keeper G1 and members [G1, G2] as claimed, but the
second hands `spawn_cspp` the member list [G1, G2, G3] (the buffered
window in arrival order, the keeper G2 being its middle element), not
[G2, G1, G3]. -/
theorem c1_counterexample :
    Option.map (fun s => s.cspp_results)
        (runLoop initState [.msg m1ex, .msg m2ex, .msg m3ex]) =
      some [⟨g1ex, [g1ex, g2ex]⟩, ⟨g2ex, [g1ex, g2ex, g3ex]⟩] ∧
    Option.map (fun s => s.cspp_results)
        (runLoop initState [.msg m1ex, .msg m2ex, .msg m3ex]) ≠
      some [⟨g1ex, [g1ex, g2ex]⟩, ⟨g2ex, [g2ex, g1ex, g3ex]⟩] := by
  constructor
  · decide
  · decide

/-- Claim C1 (amended): feeding three granule-arrived events G1, G2, G3
(each 84 seconds apart, none individually spanning more than 4 minutes)
into a fresh session causes exactly two processing-unit emissions: one
after G2 with keeper G1 and members [G1, G2], and one after G3 with
keeper G2 and members [G1, G2, G3] (the buffered window in arrival
order; the keeper is its middle element, and the dispatched argument
list is the keeper prepended to the members). -/
theorem c1_three_event_session (m1 m2 m3 : GranMsg)
    (ha1 : m1.Accepted) (ha2 : m2.Accepted) (ha3 : m3.Accepted)
    (hs1 : ¬ 240 < timedeltaSeconds
      (m1.endTimeDs.getD (m1.startTimeDs + 860) - m1.startTimeDs))
    (hs2 : ¬ 240 < timedeltaSeconds
      (m2.endTimeDs.getD (m2.startTimeDs + 860) - m2.startTimeDs))
    (hs3 : ¬ 240 < timedeltaSeconds
      (m3.endTimeDs.getD (m3.startTimeDs + 860) - m3.startTimeDs))
    (hgap21 : m2.startTimeDs - m1.startTimeDs = 840)
    (hgap32 : m3.startTimeDs - m2.startTimeDs = 840) :
    Option.map (fun s => s.cspp_results)
        (runLoop initState [.msg m1, .msg m2, .msg m3]) =
      some [⟨m1.rdrName, [m1.rdrName, m2.rdrName]⟩,
            ⟨m2.rdrName, [m1.rdrName, m2.rdrName, m3.rdrName]⟩] := by
  rw [runLoop_cons_true _ _ _ _ (run_step_nil initState m1 ha1 hs1 rfl)]
  rw [runLoop_cons_true _ _ _ _ (run_step_one _ m2 _ ha2 rfl rfl)]
  rw [runLoop_cons_true _ _ _ _ (run_step_two _ m3 _ _ ha3 rfl rfl)]
  rfl

/-- Claim C1, witness: the amended three-event session at concrete
granules 84 seconds apart. -/
theorem c1_witness :
    Option.map (fun s => s.cspp_results)
        (runLoop initState [.msg m1ex, .msg m2ex, .msg m3ex]) =
      some [⟨g1ex, [g1ex, g2ex]⟩, ⟨g2ex, [g1ex, g2ex, g3ex]⟩] :=
  c1_three_event_session m1ex m2ex m3ex
    (by decide) (by decide) (by decide)
    (by decide) (by decide) (by decide) (by decide) (by decide)

/-! ## Claim C4 — the single-granule full swath -/

/-- Claim C4, counterexample: the trigger is `tdiff.seconds > 240`, the
whole-second count of the declared span.  A single granule whose span
is 2405 deciseconds (240.5 s, which exceeds 4 minutes) does not
trigger: its whole-second count is 240, the state machine emits
nothing and returns continue. -/
theorem c4_counterexample :
    (longBoundaryMsg.endTimeDs.getD (longBoundaryMsg.startTimeDs + 860)
        - longBoundaryMsg.startTimeDs = 2405) ∧
    Option.map (fun p => (p.1.cspp_results, p.2))
        (initState.run (.msg longBoundaryMsg)) = some ([], true) := by
  constructor
  · decide
  · decide

/-- Claim C4 (amended): when a session's buffered window is empty and a
granule arrives whose declared span has a whole-second count (within a
day) exceeding 240 — `timedelta.seconds > 4 * 60`, so e.g. 260 s
triggers but 240.5 s does not — the state machine immediately emits
exactly one full-swath unit whose member list is exactly that granule,
returns stop, and the session is reset before the next event; a
granule not exceeding the threshold triggers no emission and the
session continues. -/
theorem c4_single_granule_full_swath (s : ProcState) (m : GranMsg)
    (hm : m.Accepted) (hgl : s.glist = []) (hfs : s.fullswath = false) :
    (240 < timedeltaSeconds
        (m.endTimeDs.getD (m.startTimeDs + 860) - m.startTimeDs) →
      Option.map (fun p => (p.1.fullswath, p.1.cspp_results, p.2))
          (s.run (.msg m))
        = some (true, s.cspp_results ++ [⟨m.rdrName, [m.rdrName]⟩], false) ∧
      ∀ rest, runLoop s (.msg m :: rest)
        = runLoop (((s.noteMessage m).updateOrbit m.orbitNumber).initialise)
            rest) ∧
    (¬ 240 < timedeltaSeconds
        (m.endTimeDs.getD (m.startTimeDs + 860) - m.startTimeDs) →
      Option.map (fun p => (p.1.cspp_results, p.2)) (s.run (.msg m))
        = some (s.cspp_results, true)) := by
  constructor
  · intro hl
    constructor
    · rw [run_step_fullswath s m hm hl hgl]
      rfl
    · intro rest
      rw [runLoop_cons_false _ _ _ _ (run_step_fullswath s m hm hl hgl)]
      rfl
  · intro hns
    rw [run_step_nil s m hm hns hgl]
    rfl

/-- Claim C4, witness: a 260-second granule triggers the full-swath
emission, stop and reset; an 86-second granule does not emit. -/
theorem c4_witness :
    Option.map (fun p => (p.1.fullswath, p.1.cspp_results, p.2))
        (initState.run (.msg fullSwathMsg))
      = some (true, [⟨g1ex, [g1ex]⟩], false) ∧
    runLoop initState [.msg fullSwathMsg]
      = runLoop (((initState.noteMessage fullSwathMsg).updateOrbit
          fullSwathMsg.orbitNumber).initialise) [] ∧
    Option.map (fun p => (p.1.cspp_results, p.2)) (initState.run (.msg m1ex))
      = some ([], true) := by
  refine ⟨?_, ?_, ?_⟩
  · have h := ((c4_single_granule_full_swath initState fullSwathMsg
      (by decide) rfl rfl).1 (by decide)).1
    simpa using h
  · exact ((c4_single_granule_full_swath initState fullSwathMsg
      (by decide) rfl rfl).1 (by decide)).2 []
  · have h := (c4_single_granule_full_swath initState m1ex
      (by decide) rfl rfl).2 (by decide)
    simpa using h

/-! ## Metadata-dictionary and fold lemmas -/

lemma MsgData.get?_set (d : MsgData) (k : String) (v : MsgVal) (key : String) :
    (d.set k v).get? key = if key = k then some v else d.get? key := by
  induction d with
  | nil =>
    by_cases h : key = k
    · subst h
      simp [MsgData.set, MsgData.get?]
    · have h' : ¬ k = key := fun hh => h hh.symm
      simp [MsgData.set, MsgData.get?, h, h']
  | cons hd tl ih =>
    obtain ⟨k', v'⟩ := hd
    by_cases h1 : k' = k
    · subst h1
      by_cases h2 : k' = key
      · subst h2
        simp [MsgData.set, MsgData.get?]
      · have h2' : ¬ key = k' := fun hh => h2 hh.symm
        simp [MsgData.set, MsgData.get?, h2, h2']
    · by_cases h2 : k' = key
      · subst h2
        have h1' : ¬ k' = k := h1
        simp [MsgData.set, MsgData.get?, h1']
      · simp [MsgData.set, MsgData.get?, h1, h2, ih]

lemma MsgData.get?_erase (d : MsgData) (k : String) (key : String) :
    (d.erase k).get? key = if key = k then none else d.get? key := by
  induction d with
  | nil =>
    simp only [MsgData.erase, MsgData.get?]
    split_ifs <;> rfl
  | cons hd tl ih =>
    obtain ⟨k', v'⟩ := hd
    by_cases h1 : k' = k
    · subst h1
      by_cases h2 : key = k'
      · subst h2
        simp [MsgData.erase, MsgData.get?, ih]
      · have h2' : ¬ k' = key := fun hh => h2 hh.symm
        simp [MsgData.erase, MsgData.get?, ih, h2, h2']
    · by_cases h2 : k' = key
      · subst h2
        have h1' : ¬ k' = k := h1
        simp [MsgData.erase, MsgData.get?, h1']
      · simp [MsgData.erase, MsgData.get?, h1, h2, ih]

lemma foldl_min_le (ts : List Int) :
    ∀ (t x : Int), x ∈ t :: ts → ts.foldl min t ≤ x := by
  induction ts with
  | nil =>
    intro t x hx
    simp only [List.mem_singleton] at hx
    subst hx
    simp
  | cons a as ih =>
    intro t x hx
    simp only [List.foldl_cons]
    rcases List.mem_cons.mp hx with h | h
    · subst h
      exact le_trans (ih _ _ (List.mem_cons_self _ _)) (min_le_left _ _)
    · rcases List.mem_cons.mp h with h' | h'
      · subst h'
        exact le_trans (ih _ _ (List.mem_cons_self _ _)) (min_le_right _ _)
      · exact ih (min t a) x (List.mem_cons_of_mem _ h')

lemma foldl_min_mem (ts : List Int) : ∀ t, ts.foldl min t ∈ t :: ts := by
  induction ts with
  | nil => intro t; simp
  | cons a as ih =>
    intro t
    simp only [List.foldl_cons]
    rcases List.mem_cons.mp (ih (min t a)) with h | h
    · rcases le_total t a with hta | hat
      · rw [h, min_eq_left hta]
        exact List.mem_cons_self _ _
      · rw [h, min_eq_right hat]
        exact List.mem_cons_of_mem _ (List.mem_cons_self _ _)
    · exact List.mem_cons_of_mem _ (List.mem_cons_of_mem _ h)

lemma foldl_max_ge (ts : List Int) :
    ∀ (t x : Int), x ∈ t :: ts → x ≤ ts.foldl max t := by
  induction ts with
  | nil =>
    intro t x hx
    simp only [List.mem_singleton] at hx
    subst hx
    simp
  | cons a as ih =>
    intro t x hx
    simp only [List.foldl_cons]
    rcases List.mem_cons.mp hx with h | h
    · subst h
      exact le_trans (le_max_left _ _) (ih _ _ (List.mem_cons_self _ _))
    · rcases List.mem_cons.mp h with h' | h'
      · subst h'
        exact le_trans (le_max_right _ _) (ih _ _ (List.mem_cons_self _ _))
      · exact ih (max t a) x (List.mem_cons_of_mem _ h')

lemma foldl_max_mem (ts : List Int) : ∀ t, ts.foldl max t ∈ t :: ts := by
  induction ts with
  | nil => intro t; simp
  | cons a as ih =>
    intro t
    simp only [List.foldl_cons]
    rcases List.mem_cons.mp (ih (max t a)) with h | h
    · rcases le_total t a with hta | hat
      · rw [h, max_eq_right hta]
        exact List.mem_cons_of_mem _ (List.mem_cons_self _ _)
      · rw [h, max_eq_left hat]
        exact List.mem_cons_self _ _
    · exact List.mem_cons_of_mem _ (List.mem_cons_of_mem _ h)
/-! ## Claim C3 — nonzero exit and reconciliation -/

/-- Claim C3, counterexample: a dispatched unit whose executable exits
with code 1 still reconciles the matching SDR file found in the working
directory and publishes a completion event — `run_cspp` polls the exit
code and discards it, so a nonzero exit does not by itself yield zero
result files or suppress publication. -/
theorem c3_counterexample :
    (spawn_cspp "host" "topic" c3msgdata 5 10 c3granule 1 "/wd"
        [c3sdr]).result_files = [c3sdr] ∧
    Option.map PublishOutcome.isPublished
        (spawn_cspp "host" "topic" c3msgdata 5 10 c3granule 1 "/wd"
          [c3sdr]).publish = some true := by
  constructor
  · decide
  · decide

/-- On a non-empty result list with a positive resolved orbit but no
inbound `orbit_number`, `publish_sdr` raises `KeyError` and publishes
nothing. -/
lemma publish_sdr_keyError (hostname publish_topic : String) (md : MsgData)
    (orb : Int) (files : List SdrFile) (hne : files.isEmpty = false)
    (horb : 0 < orb)
    (hk : ((md.erase "uri").erase "uid").get? "orbit_number" = none) :
    publish_sdr hostname publish_topic md orb files = .keyError := by
  unfold publish_sdr
  rw [hne]
  dsimp only
  rw [if_pos horb, hk]
  rfl

/-- On a non-empty result list, `publish_sdr` reaches the `.published`
outcome whenever the orbit rewrite cannot raise (the resolved orbit is
not positive, or the inbound `orbit_number` is present). -/
lemma publish_sdr_published_of (hostname publish_topic : String) (md : MsgData)
    (orb : Int) (files : List SdrFile) (hne : files.isEmpty = false)
    (h : 0 < orb → ((md.erase "uri").erase "uid").get? "orbit_number" ≠ none) :
    (publish_sdr hostname publish_topic md orb files).isPublished = true := by
  unfold publish_sdr
  rw [hne]
  dsimp only
  by_cases horb : 0 < orb
  · rw [if_pos horb]
    obtain ⟨v, hv⟩ := Option.ne_none_iff_exists'.mp (h horb)
    rw [hv]
    rfl
  · rw [if_neg horb]
    rfl

/-- Claim C3 (amended): the result of `spawn_cspp` is entirely
independent of the external executable's exit code (`run_cspp` reads
and discards it).  The publisher call is reached if and only if
reconciliation yields at least one result file, and a completion event
is actually published if and only if, in addition, the orbit rewrite
cannot raise — whenever the resolved orbit is positive, the inbound
metadata carries an `orbit_number` (otherwise `publish_sdr` hits a
`KeyError` and nothing is sent).  In particular a nonzero exit neither
forces zero reconciled files nor, with matching files present and
intact inbound orbit metadata, suppresses the completion event. -/
theorem c3_exit_code_ignored (hostname publish_topic : String) (md : MsgData)
    (orb tol : Int) (g : NppName) (ec1 ec2 : Int) (wd : String)
    (files : List NppName) :
    spawn_cspp hostname publish_topic md orb tol g ec1 wd files
      = spawn_cspp hostname publish_topic md orb tol g ec2 wd files ∧
    ((spawn_cspp hostname publish_topic md orb tol g ec1 wd files).publish = none
      ↔ (spawn_cspp hostname publish_topic md orb tol g ec1 wd files).result_files
          = []) ∧
    (Option.map PublishOutcome.isPublished
        (spawn_cspp hostname publish_topic md orb tol g ec1 wd files).publish
          = some true
      ↔ ((spawn_cspp hostname publish_topic md orb tol g ec1 wd files).result_files
            ≠ [] ∧
          (0 < orb → ((md.erase "uri").erase "uid").get? "orbit_number"
            ≠ none))) := by
  refine ⟨rfl, ?_, ?_⟩
  · unfold spawn_cspp
    dsimp only
    by_cases hz : (get_sdr_files files
        (some (get_datetime_from_filename g)) tol).length = 0
    · rw [if_pos hz]
      simp [List.length_eq_zero] at hz
      simp [hz]
    · rw [if_neg hz]
      simp only [List.length_eq_zero] at hz
      simp [hz]
  · unfold spawn_cspp
    dsimp only
    by_cases hz : (get_sdr_files files
        (some (get_datetime_from_filename g)) tol).length = 0
    · rw [if_pos hz]
      simp
    · rw [if_neg hz]
      have hne : get_sdr_files files (some (get_datetime_from_filename g)) tol
          ≠ [] := by
        intro h
        exact hz (by rw [h]; rfl)
      have hmap : ((get_sdr_files files (some (get_datetime_from_filename g))
          tol).map (fun n => (⟨wd, n⟩ : SdrFile))).isEmpty = false := by
        cases hcase : get_sdr_files files (some (get_datetime_from_filename g))
            tol with
        | nil => exact absurd hcase hne
        | cons a as => rfl
      dsimp only
      constructor
      · intro h
        refine ⟨hne, ?_⟩
        by_contra hcon
        push_neg at hcon
        obtain ⟨horb, hkn⟩ := hcon
        rw [publish_sdr_keyError hostname publish_topic md orb _ hmap horb hkn]
          at h
        simp [PublishOutcome.isPublished] at h
      · rintro ⟨-, hp⟩
        have := publish_sdr_published_of hostname publish_topic md orb
          ((get_sdr_files files (some (get_datetime_from_filename g)) tol).map
            (fun n => (⟨wd, n⟩ : SdrFile))) hmap hp
        simp only [Option.map]
        rw [this]

/-- Characterization of `publish_sdr` on a non-empty result list with a
positive resolved orbit whose inbound value is present. -/
lemma publish_sdr_cons (hostname publish_topic : String) (md : MsgData)
    (orb : Int) (f : SdrFile) (fs : List SdrFile) (origOrb : MsgVal)
    (horb : 0 < orb)
    (hkey : ((md.erase "uri").erase "uid").get? "orbit_number" = some origOrb) :
    publish_sdr hostname publish_topic md orb (f :: fs)
      = .published ("/" ++ publish_topic ++ "/SDR/1B/polar/direct_readout")
        (((((((((((md.erase "uri").erase "uid").set
            "orig_orbit_number" origOrb).set
            "orbit_number" (.int orb)).set
            "dataset" (.dataset ((f :: fs).map
              (fun x => (sshUri hostname x, x.name.basename))))).set
            "format" (.str "SDR")).set
            "type" (.str "HDF5")).set
            "data_processing_level" (.str "1B")).set
            "start_time" (.time ((fs.map
              (fun x => (get_sdr_times x.name).1.toDs)).foldl min
                ((get_sdr_times f.name).1.toDs)))).set
            "end_time" (.time ((fs.map
              (fun x => (get_sdr_times x.name).2.toDs)).foldl max
                ((get_sdr_times f.name).2.toDs))))) := by
  unfold publish_sdr
  dsimp only
  rw [if_pos horb, hkey]
  rfl

/-! ## Claim C9 — the outbound completion event -/

/-- Claim C9: every published completion event is the inbound keeper
metadata with the input `uri` and `uid` removed, plus `format="SDR"`,
`type="HDF5"`, `data_processing_level="1B"`, a `{uri, uid}` dataset
entry per reconciled file, `start_time`/`end_time` equal to the minimum
start and maximum end over the reconciled files, the orbit number set
to the (positive) resolved session orbit with the inbound value
preserved under `orig_orbit_number`, and all other inbound fields
unchanged; with an empty result list nothing is published and the
publisher is not invoked. -/
theorem c9_completion_event (hostname publish_topic : String) (md : MsgData)
    (orb : Int) (f : SdrFile) (fs : List SdrFile) (origOrb : MsgVal)
    (horb : 0 < orb)
    (hkey : md.get? "orbit_number" = some origOrb) :
    publish_sdr hostname publish_topic md orb [] = .nothingToPublish ∧
    (publish_sdr hostname publish_topic md orb (f :: fs)).topicOf
      = some ("/" ++ publish_topic ++ "/SDR/1B/polar/direct_readout") ∧
    ((publish_sdr hostname publish_topic md orb (f :: fs)).dataOf.bind
      (fun d => d.get? "format")) = some (.str "SDR") ∧
    ((publish_sdr hostname publish_topic md orb (f :: fs)).dataOf.bind
      (fun d => d.get? "type")) = some (.str "HDF5") ∧
    ((publish_sdr hostname publish_topic md orb (f :: fs)).dataOf.bind
      (fun d => d.get? "data_processing_level")) = some (.str "1B") ∧
    ((publish_sdr hostname publish_topic md orb (f :: fs)).dataOf.bind
      (fun d => d.get? "dataset"))
        = some (.dataset ((f :: fs).map
            (fun x => (sshUri hostname x, x.name.basename)))) ∧
    ((publish_sdr hostname publish_topic md orb (f :: fs)).dataOf.bind
      (fun d => d.get? "orbit_number")) = some (.int orb) ∧
    ((publish_sdr hostname publish_topic md orb (f :: fs)).dataOf.bind
      (fun d => d.get? "orig_orbit_number")) = some origOrb ∧
    ((publish_sdr hostname publish_topic md orb (f :: fs)).dataOf.bind
      (fun d => d.get? "uri")) = none ∧
    ((publish_sdr hostname publish_topic md orb (f :: fs)).dataOf.bind
      (fun d => d.get? "uid")) = none ∧
    ((publish_sdr hostname publish_topic md orb (f :: fs)).dataOf.bind
      (fun d => d.get? "start_time"))
        = some (.time ((fs.map (fun x => (get_sdr_times x.name).1.toDs)).foldl
            min ((get_sdr_times f.name).1.toDs))) ∧
    ((fs.map (fun x => (get_sdr_times x.name).1.toDs)).foldl
        min ((get_sdr_times f.name).1.toDs))
      ∈ ((f :: fs).map (fun x => (get_sdr_times x.name).1.toDs)) ∧
    (∀ x ∈ (f :: fs).map (fun x => (get_sdr_times x.name).1.toDs),
      ((fs.map (fun x => (get_sdr_times x.name).1.toDs)).foldl
        min ((get_sdr_times f.name).1.toDs)) ≤ x) ∧
    ((publish_sdr hostname publish_topic md orb (f :: fs)).dataOf.bind
      (fun d => d.get? "end_time"))
        = some (.time ((fs.map (fun x => (get_sdr_times x.name).2.toDs)).foldl
            max ((get_sdr_times f.name).2.toDs))) ∧
    ((fs.map (fun x => (get_sdr_times x.name).2.toDs)).foldl
        max ((get_sdr_times f.name).2.toDs))
      ∈ ((f :: fs).map (fun x => (get_sdr_times x.name).2.toDs)) ∧
    (∀ x ∈ (f :: fs).map (fun x => (get_sdr_times x.name).2.toDs),
      x ≤ ((fs.map (fun x => (get_sdr_times x.name).2.toDs)).foldl
        max ((get_sdr_times f.name).2.toDs))) ∧
    (∀ k : String, k ∉ ["uri", "uid", "orbit_number", "orig_orbit_number",
        "dataset", "format", "type", "data_processing_level",
        "start_time", "end_time"] →
      ((publish_sdr hostname publish_topic md orb (f :: fs)).dataOf.bind
        (fun d => d.get? k)) = md.get? k) := by
  have hkey' : ((md.erase "uri").erase "uid").get? "orbit_number"
      = some origOrb := by
    rw [MsgData.get?_erase, if_neg (by decide), MsgData.get?_erase,
      if_neg (by decide), hkey]
  have hP := publish_sdr_cons hostname publish_topic md orb f fs origOrb
    horb hkey'
  refine ⟨rfl, ?_, ?_, ?_, ?_, ?_, ?_, ?_, ?_, ?_, ?_,
    foldl_min_mem _ _, ?_, ?_, foldl_max_mem _ _, ?_, ?_⟩
  · rw [hP]; rfl
  · rw [hP]
    simp +decide [PublishOutcome.dataOf, MsgData.get?_set]
  · rw [hP]
    simp +decide [PublishOutcome.dataOf, MsgData.get?_set]
  · rw [hP]
    simp +decide [PublishOutcome.dataOf, MsgData.get?_set]
  · rw [hP]
    simp +decide [PublishOutcome.dataOf, MsgData.get?_set]
  · rw [hP]
    simp +decide [PublishOutcome.dataOf, MsgData.get?_set]
  · rw [hP]
    simp +decide [PublishOutcome.dataOf, MsgData.get?_set]
  · rw [hP]
    simp +decide [PublishOutcome.dataOf, MsgData.get?_set, MsgData.get?_erase]
  · rw [hP]
    simp +decide [PublishOutcome.dataOf, MsgData.get?_set, MsgData.get?_erase]
  · rw [hP]
    simp +decide [PublishOutcome.dataOf, MsgData.get?_set]
  · intro x hx
    exact foldl_min_le _ _ _ hx
  · rw [hP]
    simp +decide [PublishOutcome.dataOf, MsgData.get?_set]
  · intro x hx
    exact foldl_max_ge _ _ _ hx
  · intro k hk
    simp only [List.mem_cons, List.not_mem_nil, or_false, not_or] at hk
    obtain ⟨n1, n2, n3, n4, n5, n6, n7, n8, n9, n10⟩ := hk
    rw [hP]
    simp [PublishOutcome.dataOf, MsgData.get?_set, MsgData.get?_erase,
      n1, n2, n3, n4, n5, n6, n7, n8, n9, n10]

/-- Claim C9, witness: the completion event for two concrete reconciled
SDR files. -/
theorem c9_witness :
    publish_sdr "host" "topic" c3msgdata 5 [] = .nothingToPublish ∧
    (publish_sdr "host" "topic" c3msgdata 5
        [⟨"/wd", c3sdr⟩, ⟨"/wd", c9sdr2⟩]).topicOf
      = some ("/" ++ "topic" ++ "/SDR/1B/polar/direct_readout") ∧
    ((publish_sdr "host" "topic" c3msgdata 5
        [⟨"/wd", c3sdr⟩, ⟨"/wd", c9sdr2⟩]).dataOf.bind
      (fun d => d.get? "orbit_number")) = some (.int 5) ∧
    ((publish_sdr "host" "topic" c3msgdata 5
        [⟨"/wd", c3sdr⟩, ⟨"/wd", c9sdr2⟩]).dataOf.bind
      (fun d => d.get? "orig_orbit_number")) = some (.int 5) ∧
    ((publish_sdr "host" "topic" c3msgdata 5
        [⟨"/wd", c3sdr⟩, ⟨"/wd", c9sdr2⟩]).dataOf.bind
      (fun d => d.get? "uri")) = none ∧
    ((publish_sdr "host" "topic" c3msgdata 5
        [⟨"/wd", c3sdr⟩, ⟨"/wd", c9sdr2⟩]).dataOf.bind
      (fun d => d.get? "sensor")) = some (.str "viirs") := by
  have H := c9_completion_event "host" "topic" c3msgdata 5 ⟨"/wd", c3sdr⟩
    [⟨"/wd", c9sdr2⟩] (.int 5) (by norm_num) (by decide)
  obtain ⟨h1, h2, h3, h4, h5, h6, h7, h8, h9, h10, h11, h12, h13, h14, h15,
    h16, h17⟩ := H
  exact ⟨h1, h2, h7, h8, h9, (h17 "sensor" (by decide)).trans (by decide)⟩

end CsppRunner
